import Mathlib

/-!
Shallow embedding of the fleet-optimizer core: the fleet data generator
(src/lib/fleetData.js) and the optimization engine
(generateRecommendations, formatCurrency, getWasteCategory).

JS numbers are modelled as `Int` / `Rat` (all the arithmetic the claims
touch is exact at double precision; in particular the `tableCount * 0.6`
thresholds 42 / 27 / 54 / 30 are exactly representable).  Every
`Math.random()` call site receives its outcome as an explicit parameter
(`Bool` for comparisons against a constant, `Nat` fed through
`randomBetween` for bounded integer draws), so theorems quantify over
all outcomes of the random draws.  JS `Array.prototype.sort`, which the
language specification requires to be a stable sort, is modelled by
`List.mergeSort`, which is stable.
-/

namespace FleetOptimizer

/-- Bounded integer sampling (`randomBetween` in fleetData.js):
`Math.floor(Math.random() * (max - min + 1)) + min`.  The raw uniform
draw is the explicit parameter `u`; `u % (max - min + 1)` has exactly
the support `[0, max - min]` that `Math.floor(Math.random() * n)` has. -/
def randomBetween (u lo hi : ℕ) : ℕ := lo + u % (hi - lo + 1)

/-- JS `Math.round`: round half toward positive infinity. -/
def jsRound (q : ℚ) : ℤ := ⌊q + 1 / 2⌋

/-- Table name prefixes by category (`TABLE_PREFIXES.ecommerce`). -/
def ecommercePrefixes : List String :=
  ["orders", "products", "users", "carts", "inventory", "reviews", "payments",
   "shipments", "promotions", "sessions", "wishlists", "returns"]

/-- Lookup in the `TABLE_PREFIXES` catalog; `none` models the absent
property for an unrecognized profile type. -/
def TABLE_PREFIXES (profileType : String) : Option (List String) :=
  if profileType = "ecommerce" then some ecommercePrefixes
  else if profileType = "gaming" then
    some ["players", "sessions", "leaderboards", "achievements", "inventory",
          "matches", "guilds", "chat", "events", "purchases", "stats"]
  else if profileType = "financial" then
    some ["accounts", "transactions", "audit", "compliance", "customers",
          "loans", "cards", "alerts", "reports", "kyc", "fraud", "statements"]
  else none

/-- The `ENVIRONMENTS` constant. -/
def ENVIRONMENTS : List String := ["prod", "staging", "dev", "test"]

/-- The `REGIONS` constant. -/
def REGIONS : List String := ["us-east-1", "us-west-2", "eu-west-1"]

/-- The `UNUSED_GSI_NAMES` constant. -/
def UNUSED_GSI_NAMES : List String :=
  ["gsi-legacy-idx", "gsi-migration-temp", "gsi-old-format", "gsi-deprecated",
   "gsi-test-idx", "gsi-backup-idx", "gsi-unused-sort", "gsi-archive-idx"]

/-- One outcome of every `Math.random()` call site inside `generateTable`,
in source order: the capacity-mode coin (`Math.random() > 0.3`), the
traffic-tier coin (`Math.random() > 0.6`), the RCU and WCU draws, the
utilization branch coin (`> 0.7` for ecommerce, `> 0.5` for gaming) and
utilization draw, the GSI-count draw, the unused-GSI coin (`> 0.5`), the
number-of-unused draw, the per-name draws, the traffic-pattern draw and
the region draw. -/
structure TableDraws where
  provisionedDraw : Bool
  highTrafficDraw : Bool
  rcuU : ℕ
  wcuU : ℕ
  utilCoin : Bool
  utilU : ℕ
  gsiU : ℕ
  gsiCoin : Bool
  numUnusedU : ℕ
  gsiNameU : ℕ → ℕ
  patternU : ℕ
  regionU : ℕ

/-- One simulated table record, as returned by `generateTable`. -/
structure TableRecord where
  id : String
  tableName : String
  region : String
  environment : String
  capacityMode : String
  provisionedRCU : Option ℕ
  provisionedWCU : Option ℕ
  consumedRCU : ℤ
  consumedWCU : ℤ
  utilizationPercent : ℤ
  gsiCount : ℕ
  unusedGSIs : List String
  trafficPattern : String
  monthlySpend : ℤ
  wasteScore : ℚ
  savingsPotential : ℤ
  lastUpdated : String

instance : Inhabited TableRecord :=
  ⟨{ id := "", tableName := "", region := "", environment := "",
     capacityMode := "", provisionedRCU := none, provisionedWCU := none,
     consumedRCU := 0, consumedWCU := 0, utilizationPercent := 0,
     gsiCount := 0, unusedGSIs := [], trafficPattern := "",
     monthlySpend := 0, wasteScore := 0, savingsPotential := 0,
     lastUpdated := "" }⟩

/-- JS `String(n).padStart(2, c)`. -/
def padStart2 (s : String) (c : Char) : String :=
  if s.length < 2 then String.mk (List.replicate (2 - s.length) c) ++ s else s

/-- The profile-specific utilization factor (the `switch (profileType)` in
`generateTable`); `coin` is the branch coin and `u` the bounded draw. -/
def utilizationFactorOf (profileType : String) (coin : Bool) (u : ℕ) : ℚ :=
  if profileType = "ecommerce" then
    if coin then (randomBetween u 5 30 : ℚ) / 100 else (randomBetween u 40 90 : ℚ) / 100
  else if profileType = "gaming" then
    if coin then (randomBetween u 70 95 : ℚ) / 100 else (randomBetween u 10 40 : ℚ) / 100
  else if profileType = "financial" then
    (randomBetween u 15 50 : ℚ) / 100
  else
    (randomBetween u 20 80 : ℚ) / 100

/-- `generateTable(prefix, env, index, profileType)` from fleetData.js.
`d` carries the random draws, `now` stands for `Date.now()` and
`nowISO` for `new Date().toISOString()`. -/
def generateTable (pfx env : String) (index : ℕ) (profileType : String)
    (d : TableDraws) (now : ℕ) (nowISO : String) : TableRecord :=
  let isProvisioned := d.provisionedDraw
  let isHighTraffic := d.highTrafficDraw
  let provisionedRCU :=
    if isHighTraffic then randomBetween d.rcuU 2000 10000 else randomBetween d.rcuU 100 2000
  let provisionedWCU :=
    if isHighTraffic then randomBetween d.wcuU 500 3000 else randomBetween d.wcuU 50 500
  let utilizationFactor := utilizationFactorOf profileType d.utilCoin d.utilU
  let consumedRCU : ℤ := ⌊(provisionedRCU : ℚ) * utilizationFactor⌋
  let consumedWCU : ℤ := ⌊(provisionedWCU : ℚ) * utilizationFactor⌋
  let totalGSIs := randomBetween d.gsiU 0 5
  let unusedGSIs : List String :=
    if 0 < totalGSIs ∧ d.gsiCoin then
      let numUnused := randomBetween d.numUnusedU 1 (min 3 totalGSIs)
      (List.range numUnused).map fun i =>
        UNUSED_GSI_NAMES.getD (randomBetween (d.gsiNameU i) 0 (UNUSED_GSI_NAMES.length - 1)) ""
    else []
  let trafficPattern := ["STEADY", "SPIKY", "BURSTY"].getD (randomBetween d.patternU 0 2) ""
  let rcuCostPerMillion : ℚ := 0.25
  let wcuCostPerMillion : ℚ := 1.25
  let monthlyHours : ℚ := 730
  let monthlySpend : ℚ :=
    if isProvisioned then
      ((provisionedRCU : ℚ) * 0.00013 + (provisionedWCU : ℚ) * 0.00065) * monthlyHours
    else
      (consumedRCU : ℚ) * rcuCostPerMillion / 1000000 * 3600 * monthlyHours +
        (consumedWCU : ℚ) * wcuCostPerMillion / 1000000 * 3600 * monthlyHours
  let capacityWaste : ℚ := if isProvisioned then 1 - utilizationFactor else 0
  let gsiWaste : ℚ := if 0 < unusedGSIs.length then 0.15 * unusedGSIs.length else 0
  let modeWaste : ℚ := if isProvisioned ∧ trafficPattern = "SPIKY" then 0.2 else 0
  let wasteScore : ℚ := min 1 (capacityWaste * 0.6 + gsiWaste + modeWaste)
  let savings0 : ℚ := 0
  let savings1 :=
    if isProvisioned ∧ trafficPattern = "SPIKY" then savings0 + monthlySpend * 0.4 else savings0
  let savings2 :=
    if 0.5 < capacityWaste then savings1 + monthlySpend * capacityWaste * 0.5 else savings1
  let savingsPotential := savings2 + (unusedGSIs.length : ℚ) * 50
  { id := "tbl-" ++ toString now ++ "-" ++ toString index
    tableName := pfx ++ "-" ++ env ++ "-" ++ padStart2 (toString index) '0'
    region := REGIONS.getD (randomBetween d.regionU 0 (REGIONS.length - 1)) ""
    environment := env
    capacityMode := if isProvisioned then "PROVISIONED" else "ON_DEMAND"
    provisionedRCU := if isProvisioned then some provisionedRCU else none
    provisionedWCU := if isProvisioned then some provisionedWCU else none
    consumedRCU := consumedRCU
    consumedWCU := consumedWCU
    utilizationPercent := jsRound (utilizationFactor * 100)
    gsiCount := totalGSIs
    unusedGSIs := unusedGSIs
    trafficPattern := trafficPattern
    monthlySpend := jsRound monthlySpend
    wasteScore := (jsRound (wasteScore * 100) : ℚ) / 100
    savingsPotential := jsRound savingsPotential
    lastUpdated := nowISO }

/-- The profile-determined table count (the `switch (profileType)` in
`generateFleetData`). -/
def tableCountOf (profileType : String) : ℕ :=
  if profileType = "ecommerce" then 70
  else if profileType = "gaming" then 45
  else if profileType = "financial" then 90
  else 50

/-- The list `tables` built by the generation loop of `generateFleetData`,
before the final sort.  `draws i` are the draws consumed by table `i`,
`envU i` the environment draw for table `i`; `nowF` / `isoF` supply the
per-call timestamps. -/
def fleetRawTables (profileType : String) (draws : ℕ → TableDraws) (envU : ℕ → ℕ)
    (nowF : ℕ → ℕ) (isoF : ℕ → String) : List TableRecord :=
  let prefixes := (TABLE_PREFIXES profileType).getD ecommercePrefixes
  let tableCount := tableCountOf profileType
  (List.range tableCount).map fun i =>
    let pfx := prefixes.getD (i % prefixes.length) ""
    let env :=
      if (i : ℚ) < (tableCount : ℚ) * 0.6 then "prod"
      else ENVIRONMENTS.getD (randomBetween (envU i) 0 (ENVIRONMENTS.length - 1)) ""
    generateTable pfx env (i + 1) profileType (draws i) (nowF i) (isoF i)

/-- The comparator `(a, b) => b.wasteScore - a.wasteScore` as a Boolean
order: `a` may precede `b` iff `b.wasteScore ≤ a.wasteScore`. -/
def wasteScoreDescLe (a b : TableRecord) : Bool := decide (b.wasteScore ≤ a.wasteScore)

/-- `generateFleetData(profileType)`: generate the tables, then
`tables.sort((a, b) => b.wasteScore - a.wasteScore)` (a stable sort). -/
def generateFleetData (profileType : String) (draws : ℕ → TableDraws) (envU : ℕ → ℕ)
    (nowF : ℕ → ℕ) (isoF : ℕ → String) : List TableRecord :=
  (fleetRawTables profileType draws envU nowF isoF).mergeSort wasteScoreDescLe

/-- Fleet summary statistics (`calculateFleetStats` return shape). -/
structure FleetStats where
  totalTables : ℕ
  totalMonthlySpend : ℤ
  totalSavingsPotential : ℤ
  criticalTables : ℕ
  avgUtilization : ℤ
  unusedGSICount : ℕ
  savingsPercentage : ℤ

/-- `calculateFleetStats(tables)` from fleetData.js.  The two divisions
(`/ totalTables` and `/ totalMonthlySpend`) are unguarded in the source;
here they are Lean total division on `ℚ` (zero on a zero divisor, where
JS would produce NaN). -/
def calculateFleetStats (tables : List TableRecord) : FleetStats :=
  let totalTables := tables.length
  let totalMonthlySpend := (tables.map (·.monthlySpend)).sum
  let totalSavingsPotential := (tables.map (·.savingsPotential)).sum
  let criticalTables := (tables.filter fun t => decide ((0.7 : ℚ) ≤ t.wasteScore)).length
  let avgUtilization := jsRound (((tables.map (·.utilizationPercent)).sum : ℚ) / (totalTables : ℚ))
  let unusedGSICount := (tables.map (·.unusedGSIs.length)).sum
  { totalTables := totalTables
    totalMonthlySpend := totalMonthlySpend
    totalSavingsPotential := totalSavingsPotential
    criticalTables := criticalTables
    avgUtilization := avgUtilization
    unusedGSICount := unusedGSICount
    savingsPercentage := jsRound ((totalSavingsPotential : ℚ) / (totalMonthlySpend : ℚ) * 100) }

/-- One candidate optimization action. -/
structure Action where
  type : String
  title : String
  description : String
  estimatedSavings : ℤ
  priority : String
  icon : String

/-- One recommendation entry. -/
structure Recommendation where
  tableId : String
  tableName : String
  region : String
  currentSpend : ℤ
  wasteScore : ℚ
  totalSavings : ℤ
  primaryAction : Action
  allActions : List Action

/-- JS `s.toLowerCase()` (ASCII suffices for the pattern names used). -/
def jsToLower (s : String) : String := s.map Char.toLower

/-- The `actions` list built for one table by the loop body of
`generateRecommendations`: the four independently evaluated rules, in
source order. -/
def tableActions (t : TableRecord) : List Action :=
  (if t.capacityMode = "PROVISIONED" ∧ t.trafficPattern = "SPIKY" then
    [{ type := "SWITCH_TO_ONDEMAND"
       title := "Switch to On-Demand"
       description := "Traffic pattern is " ++ jsToLower t.trafficPattern ++
         ", On-Demand would be more cost-effective"
       estimatedSavings := jsRound ((t.monthlySpend : ℚ) * 0.4)
       priority := "HIGH"
       icon := "⚡" }]
  else []) ++
  (if t.capacityMode = "PROVISIONED" ∧ t.utilizationPercent < 30 then
    [{ type := "RIGHT_SIZE"
       title := "Right-size Capacity"
       description := "Only " ++ toString t.utilizationPercent ++
         "% utilization - reduce provisioned capacity"
       estimatedSavings := jsRound ((t.monthlySpend : ℚ) * (1 - (t.utilizationPercent : ℚ) / 100) * 0.5)
       priority := if t.utilizationPercent < 15 then "HIGH" else "MEDIUM"
       icon := "📉" }]
  else []) ++
  (if 0 < t.unusedGSIs.length then
    [{ type := "REMOVE_GSI"
       title := "Delete " ++ toString t.unusedGSIs.length ++ " Unused GSI" ++
         (if 1 < t.unusedGSIs.length then "s" else "")
       description := "GSIs without recent queries: " ++ String.intercalate ", " t.unusedGSIs
       estimatedSavings := (t.unusedGSIs.length : ℤ) * 50
       priority := if 2 ≤ t.unusedGSIs.length then "HIGH" else "MEDIUM"
       icon := "🗑️" }]
  else []) ++
  (if 5000 < t.consumedRCU ∧ t.trafficPattern = "STEADY" then
    [{ type := "ADD_DAX"
       title := "Consider DAX Cache"
       description := "High read throughput with steady pattern - DAX could reduce costs"
       estimatedSavings := jsRound ((t.monthlySpend : ℚ) * 0.25)
       priority := "LOW"
       icon := "🚀" }]
  else [])

/-- `actions.reduce((max, a) => a.estimatedSavings > max.estimatedSavings ? a : max)`:
a fold over the tail with the head as the accumulator, replacing only on
a strictly larger savings value, so the first maximum wins ties. -/
def pickPrimary (a : Action) (rest : List Action) : Action :=
  rest.foldl (fun mx x => if mx.estimatedSavings < x.estimatedSavings then x else mx) a

/-- The recommendation pushed for one table, or `none` when the table
triggers no action (`if (actions.length > 0)`). -/
def recOf (t : TableRecord) : Option Recommendation :=
  match tableActions t with
  | [] => none
  | a :: rest =>
    some { tableId := t.id
           tableName := t.tableName
           region := t.region
           currentSpend := t.monthlySpend
           wasteScore := t.wasteScore
           totalSavings := t.savingsPotential
           primaryAction := pickPrimary a rest
           allActions := a :: rest }

/-- JS `l.slice(0, e)`: a negative end index counts from the end of the
list (`max(length + e, 0)`). -/
def jsSlice0 (l : List α) (e : ℤ) : List α :=
  if e < 0 then l.take ((l.length : ℤ) + e).toNat else l.take e.toNat

/-- The comparator `(a, b) => b.savingsPotential - a.savingsPotential`
as a Boolean order. -/
def savingsDescLe (a b : TableRecord) : Bool := decide (b.savingsPotential ≤ a.savingsPotential)

/-- JS `[...tables]`: a fresh array holding the same elements. -/
def jsSpreadCopy (l : List α) : List α := l

/-- `generateRecommendations(tables, limit = 10)` from the optimization
engine: stably sort a spread copy by `savingsPotential` descending, slice
off the first `limit` tables, and keep the tables that trigger at least
one action. -/
def generateRecommendations (tables : List TableRecord) (limit : ℤ := 10) :
    List Recommendation :=
  let sortedTables := (jsSpreadCopy tables).mergeSort savingsDescLe
  (jsSlice0 sortedTables limit).filterMap recOf

/-- State-passing view of a call to `generateRecommendations`: JS
`Array.prototype.sort` mutates its receiver, but the receiver here is
the fresh copy `[...tables]`, so the second component — the array the
caller passed, as it stands after the call — is the untouched input. -/
def generateRecommendationsCall (tables : List TableRecord) (limit : ℤ := 10) :
    List Recommendation × List TableRecord :=
  let sortedCopy := (jsSpreadCopy tables).mergeSort savingsDescLe
  ((jsSlice0 sortedCopy limit).filterMap recOf, tables)

/-- `getPriorityColor(priority)`. -/
def getPriorityColor (priority : String) : String :=
  if priority = "HIGH" then "critical"
  else if priority = "MEDIUM" then "warning"
  else if priority = "LOW" then "good"
  else "info"

/-- JS `x.toFixed(1)` for a non-negative rational: one decimal digit,
ties rounded up (the ECMAScript rule picks the larger candidate; the
divergence at values not exactly representable in binary64 is outside
every amount the claims exercise). -/
def toFixed1 (q : ℚ) : String :=
  let n := jsRound (q * 10)
  toString (n / 10) ++ "." ++ toString (n % 10)

/-- `formatCurrency(amount)` from the optimization engine. -/
def formatCurrency (amount : ℤ) : String :=
  if 1000 ≤ amount then "$" ++ toFixed1 ((amount : ℚ) / 1000) ++ "k"
  else "$" ++ toString amount

/-- `getWasteCategory(score)` from the optimization engine. -/
def getWasteCategory (score : ℚ) : String :=
  if 0.7 ≤ score then "critical"
  else if 0.4 ≤ score then "warning"
  else "good"

/-! ### Helper lemmas -/

theorem le_randomBetween (u lo hi : ℕ) : lo ≤ randomBetween u lo hi :=
  Nat.le_add_right _ _

theorem randomBetween_le {lo hi : ℕ} (u : ℕ) (h : lo ≤ hi) : randomBetween u lo hi ≤ hi := by
  have hm : u % (hi - lo + 1) < hi - lo + 1 := Nat.mod_lt _ (Nat.succ_pos _)
  unfold randomBetween
  omega

theorem floor_intCast_add_half (n : ℤ) : ⌊(n : ℚ) + 1 / 2⌋ = n := by
  rw [Int.floor_eq_iff]
  constructor
  · linarith
  · linarith

theorem jsRound_natCast (n : ℕ) : jsRound (n : ℚ) = n := by
  rw [jsRound]
  exact_mod_cast floor_intCast_add_half (n : ℤ)

theorem jsRound_nonneg {q : ℚ} (h : 0 ≤ q) : 0 ≤ jsRound q := by
  rw [jsRound]
  exact Int.floor_nonneg.mpr (by linarith)

theorem jsRound_le_of_le {q : ℚ} {n : ℤ} (h : q ≤ (n : ℚ)) : jsRound q ≤ n := by
  rw [jsRound]
  calc ⌊q + 1 / 2⌋ ≤ ⌊(n : ℚ) + 1 / 2⌋ := Int.floor_le_floor (by linarith)
    _ = n := floor_intCast_add_half n

theorem utilizationFactorOf_bounds (p : String) (c : Bool) (u : ℕ) :
    ∃ k : ℕ, utilizationFactorOf p c u = (k : ℚ) / 100 ∧ k ≤ 95 := by
  unfold utilizationFactorOf
  split_ifs <;>
    exact ⟨_, rfl, le_trans (randomBetween_le _ (by norm_num)) (by norm_num)⟩

/-- A concrete table record used to instantiate theorems with hypotheses.
Its fields are the scenario of section 8 of the spec: a provisioned spiky
table at 10% utilization with one unused GSI and a monthly spend of 1000. -/
def sampleTable : TableRecord :=
  { id := "tbl-0-1", tableName := "orders-prod-01", region := "us-east-1",
    environment := "prod", capacityMode := "PROVISIONED",
    provisionedRCU := some 100, provisionedWCU := some 50,
    consumedRCU := 10, consumedWCU := 5, utilizationPercent := 10,
    gsiCount := 1, unusedGSIs := ["gsi-legacy-idx"], trafficPattern := "SPIKY",
    monthlySpend := 1000, wasteScore := 0.9, savingsPotential := 950,
    lastUpdated := "2026-01-01T00:00:00.000Z" }

/-- A concrete outcome of the draws of one `generateTable` call, used to
instantiate theorems with hypotheses. -/
def sampleDraws : TableDraws :=
  { provisionedDraw := true, highTrafficDraw := false, rcuU := 0, wcuU := 0,
    utilCoin := true, utilU := 0, gsiU := 3, gsiCoin := true, numUnusedU := 1,
    gsiNameU := fun _ => 0, patternU := 1, regionU := 0 }

theorem jsRoundPct_bounds {E : ℚ} (h0 : 0 ≤ E) (h1 : E ≤ 1) :
    0 ≤ ((jsRound (E * 100) : ℤ) : ℚ) / 100 ∧ ((jsRound (E * 100) : ℤ) : ℚ) / 100 ≤ 1 := by
  have r0 : 0 ≤ jsRound (E * 100) := jsRound_nonneg (by nlinarith)
  have r1 : jsRound (E * 100) ≤ 100 := jsRound_le_of_le (by push_cast; nlinarith)
  constructor
  · exact div_nonneg (by exact_mod_cast r0) (by norm_num)
  · rw [div_le_one (by norm_num)]
    exact_mod_cast r1

/-! ### Claim theorems -/

/-- C2: every record produced by `generateTable`, under every outcome of
the random draws, has a waste score in [0, 1], a utilization percentage
in [0, 100], at most `gsiCount` unused GSIs, and, when provisioned,
consumed capacity at most the provisioned capacity. -/
theorem table_invariants (pfx env : String) (index : ℕ) (p : String)
    (d : TableDraws) (now : ℕ) (iso : String) :
    0 ≤ (generateTable pfx env index p d now iso).wasteScore ∧
    (generateTable pfx env index p d now iso).wasteScore ≤ 1 ∧
    0 ≤ (generateTable pfx env index p d now iso).utilizationPercent ∧
    (generateTable pfx env index p d now iso).utilizationPercent ≤ 100 ∧
    (generateTable pfx env index p d now iso).unusedGSIs.length ≤
      (generateTable pfx env index p d now iso).gsiCount ∧
    ((generateTable pfx env index p d now iso).capacityMode = "PROVISIONED" →
      ∃ r w : ℕ, (generateTable pfx env index p d now iso).provisionedRCU = some r ∧
        (generateTable pfx env index p d now iso).provisionedWCU = some w ∧
        (generateTable pfx env index p d now iso).consumedRCU ≤ (r : ℤ) ∧
        (generateTable pfx env index p d now iso).consumedWCU ≤ (w : ℤ)) := by
  obtain ⟨k, hk, hk95⟩ := utilizationFactorOf_bounds p d.utilCoin d.utilU
  have hf0 : 0 ≤ utilizationFactorOf p d.utilCoin d.utilU := by
    rw [hk]
    positivity
  have hf1 : utilizationFactorOf p d.utilCoin d.utilU ≤ 1 := by
    rw [hk, div_le_one (by norm_num)]
    exact_mod_cast le_trans hk95 (by norm_num)
  simp only [generateTable]
  refine ⟨?_, ?_, ?_, ?_, ?_, ?_⟩
  · refine (jsRoundPct_bounds ?_ ?_).1
    · refine le_min (by norm_num) ?_
      refine add_nonneg (add_nonneg ?_ ?_) ?_ <;> split_ifs <;> first
        | positivity
        | nlinarith [hf1]
    · exact min_le_left _ _
  · refine (jsRoundPct_bounds ?_ ?_).2
    · refine le_min (by norm_num) ?_
      refine add_nonneg (add_nonneg ?_ ?_) ?_ <;> split_ifs <;> first
        | positivity
        | nlinarith [hf1]
    · exact min_le_left _ _
  · rw [hk, div_mul_cancel₀ _ (by norm_num : (100 : ℚ) ≠ 0), jsRound_natCast]
    exact Int.ofNat_nonneg k
  · rw [hk, div_mul_cancel₀ _ (by norm_num : (100 : ℚ) ≠ 0), jsRound_natCast]
    exact_mod_cast le_trans hk95 (by norm_num)
  · split_ifs with hg
    · simp only [List.length_map, List.length_range]
      exact le_trans
        (randomBetween_le _ (Nat.le_min.mpr ⟨by norm_num, hg.1⟩))
        (min_le_right _ _)
    · exact Nat.zero_le _
  · intro hcm
    cases hd : d.provisionedDraw with
    | false =>
      rw [hd] at hcm
      simp at hcm
    | true =>
      simp only [if_pos rfl]
      refine ⟨_, _, rfl, rfl, ?_, ?_⟩ <;>
      · refine le_trans (Int.floor_le_floor ?_) (le_of_eq (Int.floor_natCast _))
        exact mul_le_of_le_one_right (by positivity) hf1

/-- Witness for C2 at a concrete call. -/
theorem table_invariants_witness :
    0 ≤ (generateTable "orders" "prod" 1 "ecommerce" sampleDraws 0 "").wasteScore ∧
    (generateTable "orders" "prod" 1 "ecommerce" sampleDraws 0 "").wasteScore ≤ 1 ∧
    0 ≤ (generateTable "orders" "prod" 1 "ecommerce" sampleDraws 0 "").utilizationPercent ∧
    (generateTable "orders" "prod" 1 "ecommerce" sampleDraws 0 "").utilizationPercent ≤ 100 ∧
    (generateTable "orders" "prod" 1 "ecommerce" sampleDraws 0 "").unusedGSIs.length ≤
      (generateTable "orders" "prod" 1 "ecommerce" sampleDraws 0 "").gsiCount ∧
    ((generateTable "orders" "prod" 1 "ecommerce" sampleDraws 0 "").capacityMode = "PROVISIONED" →
      ∃ r w : ℕ,
        (generateTable "orders" "prod" 1 "ecommerce" sampleDraws 0 "").provisionedRCU = some r ∧
        (generateTable "orders" "prod" 1 "ecommerce" sampleDraws 0 "").provisionedWCU = some w ∧
        (generateTable "orders" "prod" 1 "ecommerce" sampleDraws 0 "").consumedRCU ≤ (r : ℤ) ∧
        (generateTable "orders" "prod" 1 "ecommerce" sampleDraws 0 "").consumedWCU ≤ (w : ℤ)) :=
  table_invariants "orders" "prod" 1 "ecommerce" sampleDraws 0 ""

theorem wasteScoreDescLe_trans : ∀ a b c : TableRecord,
    wasteScoreDescLe a b → wasteScoreDescLe b c → wasteScoreDescLe a c := by
  intro a b c hab hbc
  simp only [wasteScoreDescLe, decide_eq_true_eq] at hab hbc ⊢
  exact le_trans hbc hab

theorem wasteScoreDescLe_total : ∀ a b : TableRecord,
    wasteScoreDescLe a b || wasteScoreDescLe b a := by
  intro a b
  simp only [wasteScoreDescLe, Bool.or_eq_true, decide_eq_true_eq]
  exact le_total b.wasteScore a.wasteScore

/-- C1: for every profile type and every outcome of the random draws,
`generateFleetData` returns a sequence whose length is the fixed table
count of the profile (ecommerce 70, gaming 45, financial 90, anything
else 50) and which is sorted non-increasing by `wasteScore`. -/
theorem fleet_length_and_sorted (p : String) (draws : ℕ → TableDraws)
    (envU nowF : ℕ → ℕ) (isoF : ℕ → String) :
    (generateFleetData p draws envU nowF isoF).length =
      (if p = "ecommerce" then 70 else if p = "gaming" then 45
       else if p = "financial" then 90 else 50) ∧
    (generateFleetData p draws envU nowF isoF).Pairwise
      (fun a b => b.wasteScore ≤ a.wasteScore) := by
  constructor
  · simp [generateFleetData, fleetRawTables, tableCountOf]
  · have hs := List.sorted_mergeSort
      wasteScoreDescLe_trans wasteScoreDescLe_total
      (fleetRawTables p draws envU nowF isoF)
    exact hs.imp fun h => by simpa [wasteScoreDescLe] using h

/-- C7: in the generation loop of `generateFleetData`, a table whose
generation index lies in the first 60% of the table count gets
environment `prod`; any later table draws its environment from the full
`ENVIRONMENTS` enumeration, every member of which is attainable.  The
final fleet is a permutation (the waste-score sort) of that loop. -/
theorem environment_assignment (p : String) (draws : ℕ → TableDraws)
    (envU nowF : ℕ → ℕ) (isoF : ℕ → String) (i : ℕ) (hi : i < tableCountOf p) :
    ((i : ℚ) < (tableCountOf p : ℚ) * 0.6 →
      ((fleetRawTables p draws envU nowF isoF).getD i default).environment = "prod") ∧
    ((tableCountOf p : ℚ) * 0.6 ≤ (i : ℚ) →
      ((fleetRawTables p draws envU nowF isoF).getD i default).environment =
        ENVIRONMENTS.getD (randomBetween (envU i) 0 (ENVIRONMENTS.length - 1)) "" ∧
      ((fleetRawTables p draws envU nowF isoF).getD i default).environment ∈ ENVIRONMENTS) ∧
    (∀ e ∈ ENVIRONMENTS, ∃ u : ℕ,
      ENVIRONMENTS.getD (randomBetween u 0 (ENVIRONMENTS.length - 1)) "" = e) ∧
    (generateFleetData p draws envU nowF isoF).Perm (fleetRawTables p draws envU nowF isoF) := by
  have hienv : ((fleetRawTables p draws envU nowF isoF).getD i default).environment =
      (if (i : ℚ) < (tableCountOf p : ℚ) * 0.6 then "prod"
       else ENVIRONMENTS.getD (randomBetween (envU i) 0 (ENVIRONMENTS.length - 1)) "") := by
    simp only [fleetRawTables, List.getD_eq_getElem?_getD, List.getElem?_map,
      List.getElem?_range hi, Option.map_some', Option.getD_some]
    simp only [generateTable]
  have hmem : ∀ u : ℕ,
      ENVIRONMENTS.getD (randomBetween u 0 (ENVIRONMENTS.length - 1)) "" ∈ ENVIRONMENTS := by
    intro u
    have hlt : randomBetween u 0 (ENVIRONMENTS.length - 1) < ENVIRONMENTS.length := by
      have h4 : ENVIRONMENTS.length = 4 := rfl
      have := randomBetween_le u (Nat.zero_le (ENVIRONMENTS.length - 1))
      omega
    rw [List.getD_eq_getElem?_getD, List.getElem?_eq_getElem hlt, Option.getD_some]
    exact List.getElem_mem hlt
  refine ⟨?_, ?_, ?_, ?_⟩
  · intro h
    rw [hienv, if_pos h]
  · intro h
    rw [hienv, if_neg (not_lt.mpr h)]
    exact ⟨rfl, hmem _⟩
  · intro e he
    simp only [ENVIRONMENTS, List.mem_cons, List.not_mem_nil, or_false] at he
    rcases he with rfl | rfl | rfl | rfl
    · exact ⟨0, by decide⟩
    · exact ⟨1, by decide⟩
    · exact ⟨2, by decide⟩
    · exact ⟨3, by decide⟩
  · exact List.mergeSort_perm _ _

/-- Witness for C7 at the gaming profile and index 0. -/
theorem environment_assignment_witness :
    (0 : ℕ) < tableCountOf "gaming" ∧
    ((((0 : ℕ) : ℚ) < (tableCountOf "gaming" : ℚ) * 0.6 →
        ((fleetRawTables "gaming" (fun _ => sampleDraws) (fun _ => 0) (fun _ => 0)
            (fun _ => "")).getD 0 default).environment = "prod") ∧
      ((tableCountOf "gaming" : ℚ) * 0.6 ≤ ((0 : ℕ) : ℚ) →
        ((fleetRawTables "gaming" (fun _ => sampleDraws) (fun _ => 0) (fun _ => 0)
            (fun _ => "")).getD 0 default).environment =
          ENVIRONMENTS.getD (randomBetween 0 0 (ENVIRONMENTS.length - 1)) "" ∧
        ((fleetRawTables "gaming" (fun _ => sampleDraws) (fun _ => 0) (fun _ => 0)
            (fun _ => "")).getD 0 default).environment ∈ ENVIRONMENTS) ∧
      (∀ e ∈ ENVIRONMENTS, ∃ u : ℕ,
        ENVIRONMENTS.getD (randomBetween u 0 (ENVIRONMENTS.length - 1)) "" = e) ∧
      (generateFleetData "gaming" (fun _ => sampleDraws) (fun _ => 0) (fun _ => 0)
          (fun _ => "")).Perm
        (fleetRawTables "gaming" (fun _ => sampleDraws) (fun _ => 0) (fun _ => 0)
          (fun _ => ""))) :=
  ⟨by decide,
   environment_assignment "gaming" (fun _ => sampleDraws) (fun _ => 0) (fun _ => 0)
     (fun _ => "") 0 (by decide)⟩

/-- C4: on a non-empty sequence, `calculateFleetStats` returns
`totalMonthlySpend` equal to the sum of the monthly spends,
`criticalTables` equal to the number of tables with `wasteScore ≥ 0.7`,
and `savingsPercentage` equal to
`round(totalSavingsPotential / totalMonthlySpend × 100)`. -/
theorem fleet_stats_spec (tables : List TableRecord) (_h : tables ≠ []) :
    (calculateFleetStats tables).totalMonthlySpend = (tables.map (·.monthlySpend)).sum ∧
    (calculateFleetStats tables).criticalTables =
      tables.countP (fun t => decide ((0.7 : ℚ) ≤ t.wasteScore)) ∧
    (calculateFleetStats tables).savingsPercentage =
      jsRound (((calculateFleetStats tables).totalSavingsPotential : ℚ) /
        ((calculateFleetStats tables).totalMonthlySpend : ℚ) * 100) := by
  refine ⟨rfl, ?_, rfl⟩
  simp [calculateFleetStats, List.countP_eq_length_filter]

/-- Witness for C4 at the one-element list `[sampleTable]`. -/
theorem fleet_stats_spec_witness :
    [sampleTable] ≠ [] ∧
    ((calculateFleetStats [sampleTable]).totalMonthlySpend =
        ([sampleTable].map (·.monthlySpend)).sum ∧
      (calculateFleetStats [sampleTable]).criticalTables =
        [sampleTable].countP (fun t => decide ((0.7 : ℚ) ≤ t.wasteScore)) ∧
      (calculateFleetStats [sampleTable]).savingsPercentage =
        jsRound (((calculateFleetStats [sampleTable]).totalSavingsPotential : ℚ) /
          ((calculateFleetStats [sampleTable]).totalMonthlySpend : ℚ) * 100)) :=
  ⟨by simp, fleet_stats_spec [sampleTable] (by simp)⟩

/-- C5: on the empty sequence both divisors of `calculateFleetStats`
(the table count dividing the utilization sum, and the total monthly
spend dividing the savings total) are zero; the source performs these
divisions unguarded (JS produces NaN there; the `ℚ`-total-division
embedding collapses both quotients, and hence both derived fields, to 0). -/
theorem fleet_stats_empty_divisors :
    (calculateFleetStats []).totalTables = 0 ∧
    (calculateFleetStats []).totalMonthlySpend = 0 ∧
    (calculateFleetStats []).avgUtilization = 0 ∧
    (calculateFleetStats []).savingsPercentage = 0 := by
  refine ⟨rfl, rfl, ?_, ?_⟩ <;>
  · simp [calculateFleetStats, jsRound]
    norm_num

/-- C8: `formatCurrency` renders amounts at or above 1000 as the amount
divided by 1000 to one decimal digit between a dollar sign and a `k`
suffix, and smaller amounts as the plain integer after a dollar sign;
`getWasteCategory` is critical from 0.7, warning from 0.4, else good. -/
theorem formatting_helpers (amount : ℤ) (score : ℚ) :
    (1000 ≤ amount → formatCurrency amount = "$" ++ toFixed1 ((amount : ℚ) / 1000) ++ "k") ∧
    (amount < 1000 → formatCurrency amount = "$" ++ toString amount) ∧
    formatCurrency 1500 = "$1.5k" ∧
    formatCurrency 42 = "$42" ∧
    (0.7 ≤ score → getWasteCategory score = "critical") ∧
    (0.4 ≤ score → score < 0.7 → getWasteCategory score = "warning") ∧
    (score < 0.4 → getWasteCategory score = "good") := by
  refine ⟨?_, ?_, ?_, ?_, ?_, ?_, ?_⟩
  · intro h
    rw [formatCurrency, if_pos h]
  · intro h
    rw [formatCurrency, if_neg (by omega)]
  · have h15 : jsRound (((1500 : ℤ) : ℚ) / 1000 * 10) = 15 := by
      rw [show (((1500 : ℤ) : ℚ) / 1000 * 10) = ((15 : ℕ) : ℚ) by norm_num]
      exact jsRound_natCast 15
    rw [formatCurrency, if_pos (by norm_num), toFixed1, h15]
    decide
  · rw [formatCurrency, if_neg (by norm_num)]
    decide
  · intro h
    rw [getWasteCategory, if_pos h]
  · intro h1 h2
    rw [getWasteCategory, if_neg (by linarith), if_pos h1]
  · intro h
    rw [getWasteCategory, if_neg (by linarith), if_neg (by linarith)]

/-- Witness for C8 at `amount = 1500` and `score = 0.75`. -/
theorem formatting_helpers_witness :
    (1000 ≤ (1500 : ℤ)) ∧ ((0.7 : ℚ) ≤ 0.75) ∧
    formatCurrency 1500 = "$" ++ toFixed1 ((1500 : ℚ) / 1000) ++ "k" ∧
    getWasteCategory 0.75 = "critical" :=
  ⟨by norm_num, by norm_num,
   (formatting_helpers 1500 0.75).1 (by norm_num),
   (formatting_helpers 1500 0.75).2.2.2.2.1 (by norm_num)⟩

/-- C6: a provisioned spiky table at 10% utilization with the single
unused GSI `gsi-legacy-idx` and a monthly spend of 1000 triggers exactly
SWITCH_TO_ONDEMAND (savings 400), RIGHT_SIZE (savings 450, priority HIGH)
and REMOVE_GSI (savings 50), and RIGHT_SIZE is the primary action. -/
theorem spiky_table_scenario (t : TableRecord)
    (h1 : t.capacityMode = "PROVISIONED") (h2 : t.trafficPattern = "SPIKY")
    (h3 : t.utilizationPercent = 10) (h4 : t.unusedGSIs = ["gsi-legacy-idx"])
    (h5 : t.monthlySpend = 1000) :
    (tableActions t).map (fun a => (a.type, a.estimatedSavings, a.priority)) =
      [("SWITCH_TO_ONDEMAND", 400, "HIGH"), ("RIGHT_SIZE", 450, "HIGH"),
       ("REMOVE_GSI", 50, "MEDIUM")] ∧
    ∃ r, recOf t = some r ∧ r.primaryAction.type = "RIGHT_SIZE" ∧
      r.primaryAction.estimatedSavings = 450 := by
  have hmap : (tableActions t).map (fun a => (a.type, a.estimatedSavings, a.priority)) =
      [("SWITCH_TO_ONDEMAND", 400, "HIGH"), ("RIGHT_SIZE", 450, "HIGH"),
       ("REMOVE_GSI", 50, "MEDIUM")] := by
    simp only [tableActions, h1, h2, h3, h4, h5]
    simp
    refine ⟨?_, ?_⟩
    · rw [show ((1000 : ℚ) * 0.4) = ((400 : ℕ) : ℚ) by norm_num]
      exact jsRound_natCast 400
    · rw [show ((1000 : ℚ) * (1 - 10 / 100) * 0.5) = ((450 : ℕ) : ℚ) by norm_num]
      exact jsRound_natCast 450
  refine ⟨hmap, ?_⟩
  obtain ⟨a1, l1, hl1, hfa1, hm1⟩ := List.map_eq_cons_iff.mp hmap
  obtain ⟨a2, l2, hl2, hfa2, hm2⟩ := List.map_eq_cons_iff.mp hm1
  obtain ⟨a3, l3, hl3, hfa3, hm3⟩ := List.map_eq_cons_iff.mp hm2
  have hl3nil : l3 = [] := List.map_eq_nil_iff.mp hm3
  subst hl3nil
  have he1 : a1.estimatedSavings = 400 := by
    have := congrArg (fun p => p.2.1) hfa1
    simpa using this
  have he2 : a2.estimatedSavings = 450 := by
    have := congrArg (fun p => p.2.1) hfa2
    simpa using this
  have ht2 : a2.type = "RIGHT_SIZE" := by
    have := congrArg (fun p => p.1) hfa2
    simpa using this
  have he3 : a3.estimatedSavings = 50 := by
    have := congrArg (fun p => p.2.1) hfa3
    simpa using this
  have hact : tableActions t = [a1, a2, a3] := by rw [hl1, hl2, hl3]
  have s1 : (if a1.estimatedSavings < a2.estimatedSavings then a2 else a1) = a2 :=
    if_pos (by rw [he1, he2]; norm_num)
  have hpick : pickPrimary a1 [a2, a3] = a2 := by
    unfold pickPrimary
    simp only [List.foldl]
    rw [s1]
    exact if_neg (by rw [he2, he3]; norm_num)
  refine ⟨{ tableId := t.id, tableName := t.tableName, region := t.region,
            currentSpend := t.monthlySpend, wasteScore := t.wasteScore,
            totalSavings := t.savingsPotential,
            primaryAction := pickPrimary a1 [a2, a3], allActions := [a1, a2, a3] },
          ?_, ?_, ?_⟩
  · unfold recOf
    rw [hact]
  · show (pickPrimary a1 [a2, a3]).type = "RIGHT_SIZE"
    rw [hpick, ht2]
  · show (pickPrimary a1 [a2, a3]).estimatedSavings = 450
    rw [hpick, he2]

/-- Witness for C6 at the concrete record `sampleTable`. -/
theorem spiky_table_scenario_witness :
    sampleTable.capacityMode = "PROVISIONED" ∧ sampleTable.trafficPattern = "SPIKY" ∧
    sampleTable.utilizationPercent = 10 ∧ sampleTable.unusedGSIs = ["gsi-legacy-idx"] ∧
    sampleTable.monthlySpend = 1000 ∧
    ((tableActions sampleTable).map (fun a => (a.type, a.estimatedSavings, a.priority)) =
        [("SWITCH_TO_ONDEMAND", 400, "HIGH"), ("RIGHT_SIZE", 450, "HIGH"),
         ("REMOVE_GSI", 50, "MEDIUM")] ∧
      ∃ r, recOf sampleTable = some r ∧ r.primaryAction.type = "RIGHT_SIZE" ∧
        r.primaryAction.estimatedSavings = 450) :=
  ⟨rfl, rfl, rfl, rfl, rfl, spiky_table_scenario sampleTable rfl rfl rfl rfl rfl⟩

theorem pickPrimary_le (a : Action) (l : List Action) :
    a.estimatedSavings ≤ (pickPrimary a l).estimatedSavings := by
  induction l generalizing a with
  | nil => exact le_refl _
  | cons x l ih =>
    show a.estimatedSavings ≤
      (pickPrimary (if a.estimatedSavings < x.estimatedSavings then x else a) l).estimatedSavings
    by_cases h : a.estimatedSavings < x.estimatedSavings
    · rw [if_pos h]
      exact le_trans (le_of_lt h) (ih x)
    · rw [if_neg h]
      exact ih a

/-- The reduce in `generateRecommendations` picks the first action of
maximal `estimatedSavings`: everything strictly before it is strictly
smaller, everything after it is no larger. -/
theorem pickPrimary_split (a : Action) (l : List Action) :
    ∃ l₁ l₂, a :: l = l₁ ++ pickPrimary a l :: l₂ ∧
      (∀ b ∈ l₁, b.estimatedSavings < (pickPrimary a l).estimatedSavings) ∧
      ∀ b ∈ l₂, b.estimatedSavings ≤ (pickPrimary a l).estimatedSavings := by
  induction l generalizing a with
  | nil => exact ⟨[], [], rfl, by simp, by simp⟩
  | cons x l ih =>
    have hstep : pickPrimary a (x :: l) =
        pickPrimary (if a.estimatedSavings < x.estimatedSavings then x else a) l := rfl
    by_cases h : a.estimatedSavings < x.estimatedSavings
    · rw [hstep, if_pos h]
      obtain ⟨l₁, l₂, hx, h₁, h₂⟩ := ih x
      refine ⟨a :: l₁, l₂, ?_, ?_, h₂⟩
      · rw [List.cons_append, ← hx]
      · intro b hb
        rcases List.mem_cons.mp hb with rfl | hb'
        · exact lt_of_lt_of_le h (pickPrimary_le x l)
        · exact h₁ b hb'
    · rw [hstep, if_neg h]
      obtain ⟨l₁, l₂, hx, h₁, h₂⟩ := ih a
      cases l₁ with
      | nil =>
        simp only [List.nil_append] at hx
        injection hx with ha hl'
        refine ⟨[], x :: l₂, ?_, by simp, ?_⟩
        · simp only [List.nil_append]
          rw [← ha, hl']
        · intro b hb
          rcases List.mem_cons.mp hb with rfl | hb'
          · exact le_trans (le_of_not_lt h) (le_of_eq (congrArg (·.estimatedSavings) ha))
          · exact h₂ b hb'
      | cons c l₁' =>
        rw [List.cons_append] at hx
        injection hx with ha hl'
        have hc : c.estimatedSavings < (pickPrimary a l).estimatedSavings :=
          h₁ c (List.mem_cons_self _ _)
        refine ⟨a :: x :: l₁', l₂, ?_, ?_, h₂⟩
        · rw [List.cons_append, List.cons_append, ← hl']
        · intro b hb
          rcases List.mem_cons.mp hb with rfl | hb'
          · exact ha ▸ hc
          · rcases List.mem_cons.mp hb' with rfl | hb''
            · exact lt_of_le_of_lt (le_of_not_lt h) (ha ▸ hc)
            · exact h₁ b (List.mem_cons_of_mem _ hb'')

theorem savingsDescLe_trans : ∀ a b c : TableRecord,
    savingsDescLe a b → savingsDescLe b c → savingsDescLe a c := by
  intro a b c hab hbc
  simp only [savingsDescLe, decide_eq_true_eq] at hab hbc ⊢
  exact le_trans hbc hab

theorem savingsDescLe_total : ∀ a b : TableRecord,
    savingsDescLe a b || savingsDescLe b a := by
  intro a b
  simp only [savingsDescLe, Bool.or_eq_true, decide_eq_true_eq]
  exact le_total b.savingsPotential a.savingsPotential

/-- The specification-side selection order: tables paired with their
input position, sorted by `savingsPotential` descending with ties broken
by the smaller input position (`List.enumLE` refines `savingsDescLe` by
position exactly when the savings tie). -/
def enumSortedBySavings (tables : List TableRecord) : List (ℕ × TableRecord) :=
  (tables.enum).mergeSort (List.enumLE savingsDescLe)

/-- C3 counterexample: at the negative limit -1 (JS `slice(0, -1)` counts
from the end) the non-empty input `[sampleTable]` yields 0
recommendations, and 0 is not at most -1, so the claim fails for
arbitrary integer limits. -/
theorem recommendations_limit_counterexample :
    ¬ (((generateRecommendations [sampleTable] (-1)).length : ℤ) ≤ -1) := by
  have h : generateRecommendations [sampleTable] (-1) = [] := by
    simp [generateRecommendations, jsSpreadCopy, jsSlice0]
  rw [h]
  norm_num

/-- C3 (amended to non-negative limits): `generateRecommendations`
returns at most `limit` entries; every entry has a non-empty action list
whose primary action is the first action of maximal savings; the output
is exactly the action-triggering part of the first `limit` tables in the
stable savings order; and that prefix beats the rest on
`savingsPotential`, with ties resolved toward the earlier input index. -/
theorem recommendations_spec (tables : List TableRecord) (_hne : tables ≠ [])
    (limit : ℤ) (hl : 0 ≤ limit) :
    ((generateRecommendations tables limit).length : ℤ) ≤ limit ∧
    (∀ r ∈ generateRecommendations tables limit,
      r.allActions ≠ [] ∧
      ∃ l₁ l₂, r.allActions = l₁ ++ r.primaryAction :: l₂ ∧
        (∀ b ∈ l₁, b.estimatedSavings < r.primaryAction.estimatedSavings) ∧
        ∀ b ∈ l₂, b.estimatedSavings ≤ r.primaryAction.estimatedSavings) ∧
    generateRecommendations tables limit =
      (((enumSortedBySavings tables).map (·.2)).take limit.toNat).filterMap recOf ∧
    (∀ pq ∈ (enumSortedBySavings tables).take limit.toNat,
     ∀ qr ∈ (enumSortedBySavings tables).drop limit.toNat,
       qr.2.savingsPotential ≤ pq.2.savingsPotential ∧
         (pq.2.savingsPotential ≤ qr.2.savingsPotential → pq.1 ≤ qr.1)) := by
  have hrw : generateRecommendations tables limit =
      ((tables.mergeSort savingsDescLe).take limit.toNat).filterMap recOf := by
    simp only [generateRecommendations, jsSpreadCopy, jsSlice0, if_neg (not_lt.mpr hl)]
  refine ⟨?_, ?_, ?_, ?_⟩
  · rw [hrw]
    have hlen : ((tables.mergeSort savingsDescLe).take limit.toNat |>.filterMap recOf).length
        ≤ limit.toNat :=
      le_trans (List.length_filterMap_le _ _) (List.length_take_le _ _)
    calc ((((tables.mergeSort savingsDescLe).take limit.toNat).filterMap recOf).length : ℤ)
        ≤ (limit.toNat : ℤ) := by exact_mod_cast hlen
      _ = limit := Int.toNat_of_nonneg hl
  · intro r hr
    rw [hrw] at hr
    obtain ⟨t, ht, hsome⟩ := List.mem_filterMap.mp hr
    cases hta : tableActions t with
    | nil =>
      unfold recOf at hsome
      rw [hta] at hsome
      simp at hsome
    | cons a rest =>
      unfold recOf at hsome
      rw [hta] at hsome
      simp only [Option.some.injEq] at hsome
      subst hsome
      refine ⟨by simp, ?_⟩
      obtain ⟨l₁, l₂, hx, h₁, h₂⟩ := pickPrimary_split a rest
      exact ⟨l₁, l₂, hx, h₁, h₂⟩
  · rw [hrw, enumSortedBySavings, List.mergeSort_enum]
  · have hsorted := List.sorted_mergeSort
      (List.enumLE_trans savingsDescLe_trans) (List.enumLE_total savingsDescLe_total)
      (tables.enum)
    have hsorted' : ((enumSortedBySavings tables).take limit.toNat ++
        (enumSortedBySavings tables).drop limit.toNat).Pairwise
        (fun a b => List.enumLE savingsDescLe a b) := by
      rw [List.take_append_drop]
      exact hsorted
    obtain ⟨-, -, hcross⟩ := List.pairwise_append.mp hsorted'
    intro pq hpq qr hqr
    have h := hcross pq hpq qr hqr
    revert h
    simp only [List.enumLE, savingsDescLe]
    split_ifs with h1 h2
    · intro h3
      exact ⟨of_decide_eq_true h1, fun _ => of_decide_eq_true h3⟩
    · intro h3
      exact ⟨of_decide_eq_true h1, fun hc => absurd (decide_eq_true hc) h2⟩
    · intro h3
      simp at h3

/-- Witness for C3 at `[sampleTable]` and limit 10. -/
theorem recommendations_spec_witness :
    [sampleTable] ≠ [] ∧ (0 : ℤ) ≤ 10 ∧
    (((generateRecommendations [sampleTable] 10).length : ℤ) ≤ 10 ∧
      (∀ r ∈ generateRecommendations [sampleTable] 10,
        r.allActions ≠ [] ∧
        ∃ l₁ l₂, r.allActions = l₁ ++ r.primaryAction :: l₂ ∧
          (∀ b ∈ l₁, b.estimatedSavings < r.primaryAction.estimatedSavings) ∧
          ∀ b ∈ l₂, b.estimatedSavings ≤ r.primaryAction.estimatedSavings) ∧
      generateRecommendations [sampleTable] 10 =
        (((enumSortedBySavings [sampleTable]).map (·.2)).take (10 : ℤ).toNat).filterMap recOf ∧
      (∀ pq ∈ (enumSortedBySavings [sampleTable]).take (10 : ℤ).toNat,
       ∀ qr ∈ (enumSortedBySavings [sampleTable]).drop (10 : ℤ).toNat,
         qr.2.savingsPotential ≤ pq.2.savingsPotential ∧
           (pq.2.savingsPotential ≤ qr.2.savingsPotential → pq.1 ≤ qr.1))) :=
  ⟨by simp, by norm_num,
   recommendations_spec [sampleTable] (by simp) 10 (by norm_num)⟩

/-- C9: a call to `generateRecommendations` leaves the argument array
unchanged — the source sorts the spread copy `[...tables]`, not the
argument, so the caller-visible array after the call is the input. -/
theorem recommendations_no_mutation (tables : List TableRecord) (limit : ℤ) :
    (generateRecommendationsCall tables limit).2 = tables ∧
    (generateRecommendationsCall tables limit).1 = generateRecommendations tables limit :=
  ⟨rfl, rfl⟩

/-- C10: without an explicit limit argument the limit defaults to 10, so
the call returns at most 10 recommendations. -/
theorem recommendations_default_limit (tables : List TableRecord) :
    generateRecommendations tables = generateRecommendations tables 10 ∧
    (generateRecommendations tables).length ≤ 10 := by
  refine ⟨rfl, ?_⟩
  unfold generateRecommendations
  refine le_trans (List.length_filterMap_le _ _) ?_
  rw [jsSlice0, if_neg (by norm_num)]
  exact le_trans (List.length_take_le _ _) (by norm_num)

end FleetOptimizer
